import Mathlib

/-!
# Local-Inference-Engine: the JNI bindings and the inference session

Two layers are embedded.

* The bindings `smollm.cpp` and `lobstachatlm.cpp`, translated function by
  function.  They marshal arguments, own the raw `LLMInference*` handle and call
  the members of `LLMInference`.  The class itself is declared in
  `LLMInference.h`, which is not among the sources, so every binding is
  parametrised by an arbitrary implementation `LLMInferenceClass σ`.
* The inference session of the specification (sections 3 and 4), as a state
  machine over an arbitrary engine.

Text is carried as `String`; byte-level encoding and floating-point arithmetic
are outside the model (a `jfloat` is carried as its bit pattern and only copied).
`std::runtime_error` is the only C++ exception considered, being the only one the
bindings name; calls are sequential.
-/

namespace LocalInference

deriving instance DecidableEq for Except

/-! ## JNI values -/

/-- A machine address.  A `jlong` handle and the `LLMInference*` it is cast from
carry the same bit pattern, so both are an `Addr`; `0` is the null pointer. -/
abbrev Addr := Nat

/-- A `jfloat`, carried as its bit pattern: the bindings only copy it. -/
abbrev JFloat := Nat

/-- A reference to a `java.lang.String`. -/
structure JString where
  ref : Nat
  chars : String
deriving DecidableEq, Repr

/-- A `const char*` handed out by `GetStringUTFChars`: where it points and the
characters found there. -/
structure CharPtr where
  addr : Addr
  text : String
deriving DecidableEq, Repr

/-- A Java object read through `Get<Type>Field`: its fields by name, one table per
JNI type signature (`F`, `Z`, `J`, `I`, `Ljava/lang/String;`). -/
structure JObject where
  floatFields : String → JFloat
  booleanFields : String → Bool
  longFields : String → Int
  intFields : String → Int
  objectFields : String → JString

/-- A `jclass` obtained from `FindClass`. -/
structure JClass where
  name : String
deriving DecidableEq, Repr

/-- A `jfieldID` obtained from `GetFieldID`. -/
structure JFieldID where
  cls : JClass
  name : String
  sig : String
deriving DecidableEq, Repr

/-- A Java exception raised with `ThrowNew`. -/
structure JThrowable where
  cls : JClass
  message : String
deriving DecidableEq, Repr

/-- The part of the `JNIEnv` the bindings touch: the next character buffer to hand
out, the log of `GetStringUTFChars` calls, the log of `ReleaseStringUTFChars`
calls, and the exception pending in the calling Java thread. -/
structure JNIEnv where
  nextChars : Addr
  acquired : List (JString × CharPtr)
  released : List (JString × CharPtr)
  pending : Option JThrowable
deriving DecidableEq, Repr

def FindClass (name : String) : JClass := ⟨name⟩

def GetFieldID (cls : JClass) (name sig : String) : JFieldID := ⟨cls, name, sig⟩

def GetFloatField (obj : JObject) (fid : JFieldID) : JFloat := obj.floatFields fid.name

def GetBooleanField (obj : JObject) (fid : JFieldID) : Bool := obj.booleanFields fid.name

def GetLongField (obj : JObject) (fid : JFieldID) : Int := obj.longFields fid.name

def GetIntField (obj : JObject) (fid : JFieldID) : Int := obj.intFields fid.name

def GetObjectField (obj : JObject) (fid : JFieldID) : JString := obj.objectFields fid.name

/-- The call `env->GetStringUTFChars(s, &isCopy)`: a fresh buffer holding the
characters of `s`; the acquisition is logged. -/
def JNIEnv.GetStringUTFChars (env : JNIEnv) (s : JString) : CharPtr × JNIEnv :=
  let p : CharPtr := ⟨env.nextChars, s.chars⟩
  (p, { env with nextChars := env.nextChars + 1, acquired := env.acquired ++ [(s, p)] })

/-- The call `env->ReleaseStringUTFChars(s, chars)`; the release is logged. -/
def JNIEnv.ReleaseStringUTFChars (env : JNIEnv) (s : JString) (chars : CharPtr) : JNIEnv :=
  { env with released := env.released ++ [(s, chars)] }

/-- The call `env->ThrowNew(cls, message)`: the exception becomes pending; the
native code keeps running. -/
def JNIEnv.ThrowNew (env : JNIEnv) (cls : JClass) (message : String) : JNIEnv :=
  { env with pending := some ⟨cls, message⟩ }

/-- The characters `std::string::c_str()` shows to a reader of C strings: those
before the first NUL. -/
def c_str (s : String) : String := String.mk (s.data.takeWhile (fun c => c != Char.ofNat 0))

/-- The call `env->NewStringUTF(chars)`: the new Java string (`none` is `nullptr`). -/
def NewStringUTF (chars : String) : Option String := some chars

/-! ## The session class used by the bindings -/

/-- The exception type `std::runtime_error`, the only one the bindings catch. -/
structure RuntimeError where
  what : String
deriving DecidableEq, Repr

/-- The struct `InferenceParams` of `LLMInference.h`; the fields are those assigned
in `loadModel`, each carried at the type of the JNI getter that fills it. -/
structure InferenceParams where
  minP : JFloat
  temperature : JFloat
  storeChats : Bool
  contextSize : Int
  chatTemplate : CharPtr
  nThreads : Int
  useMmap : Bool
  useMlock : Bool
  topP : JFloat
  topK : Int
  xtcP : JFloat
  xtcT : JFloat
deriving DecidableEq, Repr

/-- The members of `LLMInference` that the bindings call, over an object state `σ`.
A member either returns or throws `std::runtime_error`; in both cases it leaves the
object in a state. -/
structure LLMInferenceClass (σ : Type) where
  construct : σ
  loadModel : σ → CharPtr → InferenceParams → Except RuntimeError Unit × σ
  addChatMessage : σ → CharPtr → CharPtr → Except RuntimeError Unit × σ
  getResponseGenerationTime : σ → Except RuntimeError JFloat × σ
  getContextSizeUsed : σ → Except RuntimeError Int × σ
  startCompletion : σ → CharPtr → Except RuntimeError Unit × σ
  completionLoop : σ → Except RuntimeError String × σ
  stopCompletion : σ → Except RuntimeError Unit × σ

/-- A member call made by a binding on the object at `self`. -/
inductive SessionCall where
  | loadModel (self : Addr) (modelPath : CharPtr) (params : InferenceParams)
  | addChatMessage (self : Addr) (message role : CharPtr)
  | getResponseGenerationTime (self : Addr)
  | getContextSizeUsed (self : Addr)
  | startCompletion (self : Addr) (prompt : CharPtr)
  | completionLoop (self : Addr)
  | stopCompletion (self : Addr)
deriving DecidableEq, Repr

/-- What a native function runs in: the JNI environment, the live `LLMInference`
objects by address, and the logs of `new`, of `delete` and of member calls. -/
structure World (σ : Type) where
  env : JNIEnv
  objs : List (Addr × σ)
  allocated : List Addr
  deleted : List Addr
  calls : List SessionCall
deriving DecidableEq, Repr

/-- How a call of a native function ends. -/
inductive Outcome (σ α : Type) where
  /-- It returned `ret` to the JVM; `w.env.pending` may hold an exception. -/
  | returned (ret : α) (w : World σ)
  /-- A C++ exception left the native function uncaught. -/
  | escaped (e : RuntimeError) (w : World σ)
  /-- It went through a pointer to no live object. -/
  | undefinedBehaviour
  /-- Its text names an identifier that is not declared. -/
  | illFormed (ident : String)
deriving DecidableEq, Repr

variable {σ : Type}

/-- An address above every live object, never null. -/
def freshAddr (objs : List (Addr × σ)) : Addr := (objs.map Prod.fst).foldr max 0 + 1

/-- The expression `new LLMInference()`. -/
def World.new (w : World σ) (obj : σ) : Addr × World σ :=
  let a := freshAddr w.objs
  (a, { w with objs := (a, obj) :: w.objs, allocated := w.allocated ++ [a] })

/-- The live object a pointer refers to, if any. -/
def World.deref (w : World σ) (p : Addr) : Option σ := w.objs.lookup p

/-- Writes back the state of the object at `p`. -/
def World.store (w : World σ) (p : Addr) (obj : σ) : World σ :=
  { w with objs := w.objs.map (fun e => if e.1 = p then (p, obj) else e) }

/-- The statement `delete p`: nothing for the null pointer, destruction of the live
object at `p`, and otherwise no defined result. -/
def World.delete (w : World σ) (p : Addr) : Option (World σ) :=
  if p = 0 then some w
  else match w.deref p with
    | none => none
    | some _ => some { w with objs := w.objs.filter (fun e => e.1 != p), deleted := w.deleted ++ [p] }

/-- Records a member call. -/
def World.call (w : World σ) (c : SessionCall) : World σ := { w with calls := w.calls ++ [c] }

/-- A member call `p->m(...)`: it needs a live object at `p`, runs the member and
leaves the object in the state the member left it in. -/
def World.invoke {α : Type} (w : World σ) (p : Addr) (c : SessionCall)
    (m : σ → Except RuntimeError α × σ) : Option (Except RuntimeError α × World σ) :=
  match w.deref p with
  | none => none
  | some obj => some ((m obj).1, (w.store p (m obj).2).call c)

/-! ## The native functions

The two files have the same text up to the Java names and one identifier, so each
function is written once, with what differs as a parameter, and instantiated for
`smollm.cpp` and for `lobstachatlm.cpp` below. -/

namespace Binding

/-- The function `loadModel` (lines 4-37 of both files).  `paramsClassName` is the
class handed to `FindClass`; `init` is the default-initialised `cppParams`. -/
def loadModel (paramsClassName : String) (C : LLMInferenceClass σ) (init : InferenceParams)
    (w : World σ) (modelPath : JString) (params : JObject) : Outcome σ Addr :=
  let (modelPathCstr, env1) := w.env.GetStringUTFChars modelPath
  let (llmInference, w1) := ({ w with env := env1 }).new C.construct
  let inferenceParamsClass := FindClass paramsClassName
  let cppParams := init
  let cppParams := { cppParams with
    minP := GetFloatField params (GetFieldID inferenceParamsClass "minP" "F") }
  let cppParams := { cppParams with
    temperature := GetFloatField params (GetFieldID inferenceParamsClass "temperature" "F") }
  let cppParams := { cppParams with
    storeChats := GetBooleanField params (GetFieldID inferenceParamsClass "storeChats" "Z") }
  let cppParams := { cppParams with
    contextSize := GetLongField params (GetFieldID inferenceParamsClass "contextSize" "J") }
  let chatTemplateJava :=
    GetObjectField params (GetFieldID inferenceParamsClass "chatTemplate" "Ljava/lang/String;")
  let (chatTemplateCstr, env2) := w1.env.GetStringUTFChars chatTemplateJava
  let cppParams := { cppParams with chatTemplate := chatTemplateCstr }
  let cppParams := { cppParams with
    nThreads := GetIntField params (GetFieldID inferenceParamsClass "numThreads" "I") }
  let cppParams := { cppParams with
    useMmap := GetBooleanField params (GetFieldID inferenceParamsClass "useMmap" "Z") }
  let cppParams := { cppParams with
    useMlock := GetBooleanField params (GetFieldID inferenceParamsClass "useMlock" "Z") }
  let cppParams := { cppParams with
    topP := GetFloatField params (GetFieldID inferenceParamsClass "topP" "F") }
  let cppParams := { cppParams with
    topK := GetIntField params (GetFieldID inferenceParamsClass "topK" "I") }
  let cppParams := { cppParams with
    xtcP := GetFloatField params (GetFieldID inferenceParamsClass "xtcP" "F") }
  let cppParams := { cppParams with
    xtcT := GetFloatField params (GetFieldID inferenceParamsClass "xtcT" "F") }
  match ({ w1 with env := env2 }).invoke llmInference
      (.loadModel llmInference modelPathCstr cppParams)
      (fun obj => C.loadModel obj modelPathCstr cppParams) with
  | none => .undefinedBehaviour
  | some (r, w2) =>
    let env3 := match r with
      | .ok _ => w2.env
      | .error error =>
        w2.env.ThrowNew (FindClass "java/lang/IllegalStateException") error.what
    let env4 := env3.ReleaseStringUTFChars modelPath modelPathCstr
    let env5 := env4.ReleaseStringUTFChars chatTemplateJava cppParams.chatTemplate
    .returned llmInference { w2 with env := env5 }

/-- The function `addChatMessage` (lines 39-49 of both files). -/
def addChatMessage (C : LLMInferenceClass σ) (w : World σ) (modelPtr : Addr)
    (message role : JString) : Outcome σ Unit :=
  let (messageCstr, env1) := w.env.GetStringUTFChars message
  let (roleCstr, env2) := env1.GetStringUTFChars role
  match ({ w with env := env2 }).invoke modelPtr
      (.addChatMessage modelPtr messageCstr roleCstr)
      (fun obj => C.addChatMessage obj messageCstr roleCstr) with
  | none => .undefinedBehaviour
  | some (.error e, w1) => .escaped e w1
  | some (.ok _, w1) =>
    let env3 := w1.env.ReleaseStringUTFChars message messageCstr
    let env4 := env3.ReleaseStringUTFChars role roleCstr
    .returned () { w1 with env := env4 }

/-- The function `getResponseGenerationSpeed` (lines 51-55 of both files). -/
def getResponseGenerationSpeed (C : LLMInferenceClass σ) (w : World σ) (modelPtr : Addr) :
    Outcome σ JFloat :=
  match w.invoke modelPtr (.getResponseGenerationTime modelPtr) C.getResponseGenerationTime with
  | none => .undefinedBehaviour
  | some (.error e, w1) => .escaped e w1
  | some (.ok t, w1) => .returned t w1

/-- The function `getContextSizeUsed` (lines 57-61 of both files). -/
def getContextSizeUsed (C : LLMInferenceClass σ) (w : World σ) (modelPtr : Addr) :
    Outcome σ Int :=
  match w.invoke modelPtr (.getContextSizeUsed modelPtr) C.getContextSizeUsed with
  | none => .undefinedBehaviour
  | some (.error e, w1) => .escaped e w1
  | some (.ok n, w1) => .returned n w1

/-- The function `close` (lines 63-67 of both files). -/
def close (w : World σ) (modelPtr : Addr) : Outcome σ Unit :=
  match w.delete modelPtr with
  | none => .undefinedBehaviour
  | some w1 => .returned () w1

/-- The function `startCompletion` (lines 69-76 of both files).  The files differ in
the identifier given to `ReleaseStringUTFChars` as its second argument;
`releasedIdent` is that identifier, looked up among the `const char*` locals of the
function. -/
def startCompletion (releasedIdent : String) (C : LLMInferenceClass σ) (w : World σ)
    (modelPtr : Addr) (prompt : JString) : Outcome σ Unit :=
  let (promptCstr, env1) := w.env.GetStringUTFChars prompt
  let locals : List (String × CharPtr) := [("promptCstr", promptCstr)]
  match locals.lookup releasedIdent with
  | none => .illFormed releasedIdent
  | some released =>
    match ({ w with env := env1 }).invoke modelPtr (.startCompletion modelPtr promptCstr)
        (fun obj => C.startCompletion obj promptCstr) with
    | none => .undefinedBehaviour
    | some (.error e, w1) => .escaped e w1
    | some (.ok _, w1) =>
      .returned () { w1 with env := w1.env.ReleaseStringUTFChars prompt released }

/-- The function `completionLoop` (lines 78-91 of both files); `none` is `nullptr`. -/
def completionLoop (C : LLMInferenceClass σ) (w : World σ) (modelPtr : Addr) :
    Outcome σ (Option String) :=
  match w.invoke modelPtr (.completionLoop modelPtr) C.completionLoop with
  | none => .undefinedBehaviour
  | some (.ok response, w1) =>
    if response = "" then .returned (NewStringUTF "[EOG]") w1
    else .returned (NewStringUTF (c_str response)) w1
  | some (.error error, w1) =>
    .returned none { w1 with
      env := w1.env.ThrowNew (FindClass "java/lang/IllegalStateException") error.what }

/-- The function `stopCompletion` (lines 93-97 of both files). -/
def stopCompletion (C : LLMInferenceClass σ) (w : World σ) (modelPtr : Addr) :
    Outcome σ Unit :=
  match w.invoke modelPtr (.stopCompletion modelPtr) C.stopCompletion with
  | none => .undefinedBehaviour
  | some (.error e, w1) => .escaped e w1
  | some (.ok _, w1) => .returned () w1

end Binding

/-! ### `smollm.cpp` -/

def Java_io_shubham0204_smollm_SmolLM_loadModel (C : LLMInferenceClass σ)
    (init : InferenceParams) (w : World σ) (modelPath : JString) (params : JObject) :
    Outcome σ Addr :=
  Binding.loadModel "io/shubham0204/smollm/SmolLM$InferenceParams" C init w modelPath params

def Java_io_shubham0204_smollm_SmolLM_addChatMessage (C : LLMInferenceClass σ) (w : World σ)
    (modelPtr : Addr) (message role : JString) : Outcome σ Unit :=
  Binding.addChatMessage C w modelPtr message role

def Java_io_shubham0204_smollm_SmolLM_getResponseGenerationSpeed (C : LLMInferenceClass σ)
    (w : World σ) (modelPtr : Addr) : Outcome σ JFloat :=
  Binding.getResponseGenerationSpeed C w modelPtr

def Java_io_shubham0204_smollm_SmolLM_getContextSizeUsed (C : LLMInferenceClass σ)
    (w : World σ) (modelPtr : Addr) : Outcome σ Int :=
  Binding.getContextSizeUsed C w modelPtr

def Java_io_shubham0204_smollm_SmolLM_close (w : World σ) (modelPtr : Addr) : Outcome σ Unit :=
  Binding.close w modelPtr

/-- Line 75 of `smollm.cpp` releases `promptCstr`. -/
def Java_io_shubham0204_smollm_SmolLM_startCompletion (C : LLMInferenceClass σ) (w : World σ)
    (modelPtr : Addr) (prompt : JString) : Outcome σ Unit :=
  Binding.startCompletion "promptCstr" C w modelPtr prompt

def Java_io_shubham0204_smollm_SmolLM_completionLoop (C : LLMInferenceClass σ) (w : World σ)
    (modelPtr : Addr) : Outcome σ (Option String) :=
  Binding.completionLoop C w modelPtr

def Java_io_shubham0204_smollm_SmolLM_stopCompletion (C : LLMInferenceClass σ) (w : World σ)
    (modelPtr : Addr) : Outcome σ Unit :=
  Binding.stopCompletion C w modelPtr

/-! ### `lobstachatlm.cpp` -/

def Java_com_roblobsta_lobstachat_lm_LobstaChatLM_loadModel (C : LLMInferenceClass σ)
    (init : InferenceParams) (w : World σ) (modelPath : JString) (params : JObject) :
    Outcome σ Addr :=
  Binding.loadModel "com/roblobsta/lobstachat/lm/LobstaChatLM$InferenceParams" C init w
    modelPath params

def Java_com_roblobsta_lobstachat_lm_LobstaChatLM_addChatMessage (C : LLMInferenceClass σ)
    (w : World σ) (modelPtr : Addr) (message role : JString) : Outcome σ Unit :=
  Binding.addChatMessage C w modelPtr message role

def Java_com_roblobsta_lobstachat_lm_LobstaChatLM_getResponseGenerationSpeed
    (C : LLMInferenceClass σ) (w : World σ) (modelPtr : Addr) : Outcome σ JFloat :=
  Binding.getResponseGenerationSpeed C w modelPtr

def Java_com_roblobsta_lobstachat_lm_LobstaChatLM_getContextSizeUsed (C : LLMInferenceClass σ)
    (w : World σ) (modelPtr : Addr) : Outcome σ Int :=
  Binding.getContextSizeUsed C w modelPtr

def Java_com_roblobsta_lobstachat_lm_LobstaChatLM_close (w : World σ) (modelPtr : Addr) :
    Outcome σ Unit :=
  Binding.close w modelPtr

/-- Line 75 of `lobstachatlm.cpp` releases `promptCItr`. -/
def Java_com_roblobsta_lobstachat_lm_LobstaChatLM_startCompletion (C : LLMInferenceClass σ)
    (w : World σ) (modelPtr : Addr) (prompt : JString) : Outcome σ Unit :=
  Binding.startCompletion "promptCItr" C w modelPtr prompt

def Java_com_roblobsta_lobstachat_lm_LobstaChatLM_completionLoop (C : LLMInferenceClass σ)
    (w : World σ) (modelPtr : Addr) : Outcome σ (Option String) :=
  Binding.completionLoop C w modelPtr

def Java_com_roblobsta_lobstachat_lm_LobstaChatLM_stopCompletion (C : LLMInferenceClass σ)
    (w : World σ) (modelPtr : Addr) : Outcome σ Unit :=
  Binding.stopCompletion C w modelPtr

/-! ## A scripted session object

A concrete implementation of the class, for evaluating the bindings on concrete
inputs. -/

/-- The state of a scripted session object: what its `completionLoop` still has to
answer, call by call. -/
abbrev Script := List (Except RuntimeError String)

/-- The scripted implementation: `loadModel` does `loadResult`, `completionLoop`
gives the next scripted answer (the empty response once the script is used up), and
every other member returns normally. -/
def scripted (loadResult : Except RuntimeError Unit) (script : Script) :
    LLMInferenceClass Script where
  construct := script
  loadModel := fun s _ _ => (loadResult, s)
  addChatMessage := fun s _ _ => (.ok (), s)
  getResponseGenerationTime := fun s => (.ok 0, s)
  getContextSizeUsed := fun s => (.ok 0, s)
  startCompletion := fun s _ => (.ok (), s)
  completionLoop := fun s =>
    match s with
    | [] => (.ok "", [])
    | r :: rest => (r, rest)
  stopCompletion := fun s => (.ok (), s)

/-- A Java parameter object with the given field values. -/
def sampleParams : JObject where
  floatFields := fun n =>
    if n = "minP" then 1 else if n = "temperature" then 2 else if n = "topP" then 3
    else if n = "xtcP" then 4 else if n = "xtcT" then 5 else 0
  booleanFields := fun n =>
    if n = "storeChats" then true else if n = "useMmap" then true else false
  longFields := fun n => if n = "contextSize" then 2048 else 0
  intFields := fun n => if n = "numThreads" then 4 else if n = "topK" then 40 else 0
  objectFields := fun n => if n = "chatTemplate" then ⟨7, "chatml"⟩ else ⟨0, ""⟩

/-- A default-initialised `InferenceParams`. -/
def zeroParams : InferenceParams :=
  ⟨0, 0, false, 0, ⟨0, ""⟩, 0, false, false, 0, 0, 0, 0⟩

/-- A world with no live object and nothing logged. -/
def emptyWorld : World σ := ⟨⟨100, [], [], none⟩, [], [], [], []⟩

/-- The configuration `loadModel` builds from the caller's parameter object, with
`chars` the buffer obtained for the chat template. -/
def marshalled (params : JObject) (chars : CharPtr) : InferenceParams where
  minP := params.floatFields "minP"
  temperature := params.floatFields "temperature"
  storeChats := params.booleanFields "storeChats"
  contextSize := params.longFields "contextSize"
  chatTemplate := chars
  nThreads := params.intFields "numThreads"
  useMmap := params.booleanFields "useMmap"
  useMlock := params.booleanFields "useMlock"
  topP := params.floatFields "topP"
  topK := params.intFields "topK"
  xtcP := params.floatFields "xtcP"
  xtcT := params.floatFields "xtcT"

/-- A world whose only live object is `obj`, at address `1`. -/
def liveWorld (obj : σ) : World σ := ⟨⟨100, [], [], none⟩, [(1, obj)], [1], [], []⟩

/-! ## The inference session of the specification

The class `LLMInference` behind the bindings is not among the sources.  The session
it implements is modelled here from sections 3, 4 and 6 of the specification, over
an arbitrary engine. -/

/-- Modelled from the spec: the generation-loop state of section 3 (the class
`LLMInference` that holds it is missing from the sources). -/
inductive GenState where
  | Idle
  | Generating
  | Cancelling
deriving DecidableEq, Repr

/-- Modelled from the spec: the roles of a chat turn, section 3 (`LLMInference` is
missing from the sources). -/
inductive Role where
  | system
  | user
  | assistant
deriving DecidableEq, Repr

/-- Modelled from the spec: the error kinds of section 7 (`LLMInference` is missing
from the sources). -/
inductive SessionError where
  | ModelLoadError
  | InvalidRoleError
  | SessionBusyError
  | TokenizationError
  | ContextOverflowError
  | NotGeneratingError
deriving DecidableEq, Repr

/-- Modelled from the spec: what a successful `completionLoop` call hands back,
section 6: a text fragment or the end-of-generation sentinel (`LLMInference` is
missing from the sources). -/
inductive StepResult where
  | fragment (text : String)
  | endOfGeneration
deriving DecidableEq, Repr

/-- A token of the engine. -/
abbrev Token := Nat

/-- Modelled from the spec: the external engine of section 6, a black box.
`load` tells whether loading succeeds; `render` is the template expansion of
section 4.2; `tokenize` gives no result when the text cannot be tokenized; `step i`
is what the `i`-th inference step run on the handle yields, the token and whether it
is the end token; `decode` gives the text of a token. -/
structure Engine where
  load : String → Nat → Nat → Bool → Bool → Bool
  render : String → List (Role × String) → String → String
  tokenize : String → Option (List Token)
  step : Nat → Token × Bool
  decode : Token → String

/-- Modelled from the spec: the `SamplingConfig` of section 3 (`LLMInference.h` is
missing from the sources); the floats are carried as bit patterns. -/
structure SamplingConfig where
  temperature : JFloat
  topP : JFloat
  minP : JFloat
  topK : Nat
  xtcP : JFloat
  xtcT : JFloat
  contextSize : Nat
  threadCount : Nat
  useMemoryMap : Bool
  useMemoryLock : Bool
  persistHistory : Bool
  promptTemplate : String
deriving DecidableEq, Repr

/-- Modelled from the spec: the `InferenceSession` of section 3 (the class
`LLMInference` is missing from the sources).  `headroom` is the configured
generation headroom of section 4.3; `contextUsed` is the occupied-context-token
counter; `output` is the running output of the current turn; `engineSteps` counts
the inference steps run on the engine handle.  Elapsed time is not carried. -/
structure InferenceSession where
  config : SamplingConfig
  headroom : Nat
  state : GenState
  history : List (Role × String)
  contextUsed : Nat
  output : List Token
  tokensGenerated : Nat
  engineSteps : Nat
deriving DecidableEq, Repr

namespace InferenceSession

/-- Modelled from the spec: `load` of section 4.1 (`LLMInference::loadModel` is
missing from the sources): `ModelLoadError` when the engine cannot load, otherwise
a session in state Idle with empty ChatHistory. -/
def load (E : Engine) (headroom : Nat) (path : String) (cfg : SamplingConfig) :
    Except SessionError InferenceSession :=
  if E.load path cfg.contextSize cfg.threadCount cfg.useMemoryMap cfg.useMemoryLock then
    .ok { config := cfg, headroom := headroom, state := .Idle, history := [], contextUsed := 0,
          output := [], tokensGenerated := 0, engineSteps := 0 }
  else .error .ModelLoadError

/-- Modelled from the spec: the valid roles of section 4.2 (`LLMInference` is missing
from the sources). -/
def parseRole (role : String) : Option Role :=
  if role = "system" then some .system
  else if role = "user" then some .user
  else if role = "assistant" then some .assistant
  else none

/-- Modelled from the spec: `addChatMessage` of section 4.2
(`LLMInference::addChatMessage` is missing from the sources): safe only while Idle,
`SessionBusyError` during a generation, `InvalidRoleError` for a role outside
system, user, assistant, and otherwise the turn is appended. -/
def addChatMessage (s : InferenceSession) (message role : String) :
    Except SessionError Unit × InferenceSession :=
  match s.state with
  | .Generating => (.error .SessionBusyError, s)
  | .Cancelling => (.error .SessionBusyError, s)
  | .Idle =>
    match parseRole role with
    | none => (.error .InvalidRoleError, s)
    | some r => (.ok (), { s with history := s.history ++ [(r, message)] })

/-- Modelled from the spec: `startCompletion` of section 4.3
(`LLMInference::startCompletion` is missing from the sources).  The full history, or
the latest turn alone when `persistHistory` is off, is rendered with the prompt and
tokenized; when the prompt does not fit next to the tokens already in the context,
the oldest of those are dropped until prompt and headroom fit; the counters of the
turn are reset and the session becomes Generating. -/
def startCompletion (E : Engine) (s : InferenceSession) (prompt : String) :
    Except SessionError Unit × InferenceSession :=
  match s.state with
  | .Generating => (.error .SessionBusyError, s)
  | .Cancelling => (.error .SessionBusyError, s)
  | .Idle =>
    let turns := if s.config.persistHistory then s.history else s.history.getLast?.toList
    match E.tokenize (E.render s.config.promptTemplate turns prompt) with
    | none => (.error .TokenizationError, s)
    | some tokens =>
      if s.config.contextSize < tokens.length then (.error .ContextOverflowError, s)
      else
        let kept :=
          if s.config.contextSize < s.contextUsed + tokens.length then
            min s.contextUsed (s.config.contextSize - (tokens.length + s.headroom))
          else s.contextUsed
        (.ok (), { s with state := .Generating, contextUsed := kept + tokens.length,
                          output := [], tokensGenerated := 0 })

/-- Modelled from the spec: what section 4.4 does when end-of-generation is detected
(`LLMInference::completionLoop` is missing from the sources): the session becomes
Idle and, when `persistHistory` is on, the generated response becomes one assistant
turn. -/
def finalize (E : Engine) (s : InferenceSession) : InferenceSession :=
  { s with
    state := .Idle
    history :=
      if s.config.persistHistory then
        s.history ++ [(Role.assistant, String.join (s.output.map E.decode))]
      else s.history }

/-- Modelled from the spec: step (c) of section 4.4 (`LLMInference::completionLoop` is
missing from the sources): one engine inference step is run, its token is appended
to the running output, and the occupied-context-token counter and the token count
advance. -/
def stepped (E : Engine) (s : InferenceSession) : InferenceSession :=
  { s with
    engineSteps := s.engineSteps + 1
    output := s.output ++ [(E.step s.engineSteps).1]
    contextUsed := s.contextUsed + 1
    tokensGenerated := s.tokensGenerated + 1 }

/-- Modelled from the spec: `completionLoop` of section 4.4, steps (a) to (e) in the
order given there (`LLMInference::completionLoop` is missing from the sources):
(a) outside a generation the call fails with `NotGeneratingError`; (b) in state
Cancelling it finalizes without a step; (c) otherwise it runs one step; (d) when the
step gave the end token or the counter has reached `contextSize` it finalizes and
returns the sentinel; (e) otherwise it returns the text of the new token. -/
def completionLoop (E : Engine) (s : InferenceSession) :
    Except SessionError StepResult × InferenceSession :=
  match s.state with
  | .Idle => (.error .NotGeneratingError, s)
  | .Cancelling => (.ok .endOfGeneration, finalize E s)
  | .Generating =>
    let s1 := stepped E s
    if (E.step s.engineSteps).2 || decide (s1.config.contextSize ≤ s1.contextUsed) then
      (.ok .endOfGeneration, finalize E s1)
    else (.ok (.fragment (E.decode (E.step s.engineSteps).1)), s1)

/-- Modelled from the spec: `stopCompletion` of section 4.5
(`LLMInference::stopCompletion` is missing from the sources). -/
def stopCompletion (s : InferenceSession) : InferenceSession :=
  match s.state with
  | .Generating => { s with state := .Cancelling }
  | .Idle => s
  | .Cancelling => s

/-- Modelled from the spec: `getContextSizeUsed` of section 4.6
(`LLMInference::getContextSizeUsed` is missing from the sources). -/
def getContextSizeUsed (s : InferenceSession) : Nat := s.contextUsed

/-- The results of successive `addChatMessage` calls, each given as message and
role, and the session after them. -/
def addChatMessages : InferenceSession → List (String × String) →
    List (Except SessionError Unit) × InferenceSession
  | s, [] => ([], s)
  | s, c :: cs =>
    ((addChatMessage s c.1 c.2).1 :: (addChatMessages (addChatMessage s c.1 c.2).2 cs).1,
      (addChatMessages (addChatMessage s c.1 c.2).2 cs).2)

end InferenceSession

/-- The number of calls that succeeded. -/
def successes {ε α : Type} (rs : List (Except ε α)) : Nat :=
  (rs.filter (fun r => match r with | .ok _ => true | .error _ => false)).length

/-- An engine that loads every model, takes each character of a text for a token,
never emits the end token, and whose `i`-th step yields token `i`, decoded as its
decimal numeral. -/
def countingEngine : Engine where
  load := fun _ _ _ _ _ => true
  render := fun _ _ prompt => prompt
  tokenize := fun text => some (text.data.map Char.toNat)
  step := fun i => (i, false)
  decode := fun t => toString t

/-- A configuration with a context window of `contextSize` tokens. -/
def windowConfig (contextSize : Nat) : SamplingConfig :=
  ⟨0, 0, 0, 0, 0, 0, contextSize, 1, false, false, true, ""⟩

/-- A freshly loaded session with a context window of `contextSize` tokens. -/
def freshSession (contextSize : Nat) : InferenceSession :=
  { config := windowConfig contextSize, headroom := 0, state := .Idle, history := [],
    contextUsed := 0, output := [], tokensGenerated := 0, engineSteps := 0 }

/-! ## Lemmas on the bindings -/

theorem freshAddr_gt (objs : List (Addr × σ)) : ∀ e ∈ objs, e.1 < freshAddr objs := by
  intro e he
  induction objs with
  | nil => cases he
  | cons x xs ih =>
    have hstep : freshAddr (x :: xs) = max x.1 ((xs.map Prod.fst).foldr max 0) + 1 := rfl
    rw [hstep]
    rcases List.mem_cons.1 he with h | h
    · subst h
      exact Nat.lt_succ_of_le (le_max_left _ _)
    · have h1 : e.1 < (xs.map Prod.fst).foldr max 0 + 1 := ih h
      exact Nat.lt_succ_of_le (le_trans (Nat.le_of_lt_succ h1) (le_max_right _ _))

theorem map_store_fresh (objs : List (Addr × σ)) (a : Addr) (obj : σ)
    (h : ∀ e ∈ objs, e.1 ≠ a) :
    objs.map (fun e => if e.1 = a then (a, obj) else e) = objs := by
  induction objs with
  | nil => rfl
  | cons x xs ih =>
    have hx := h x (List.mem_cons_self _ _)
    simp only [List.map_cons, if_neg hx]
    rw [ih (fun e he => h e (List.mem_cons_of_mem _ he))]

theorem filter_fresh (objs : List (Addr × σ)) (a : Addr) (h : ∀ e ∈ objs, e.1 ≠ a) :
    objs.filter (fun e => e.1 != a) = objs := by
  apply List.filter_eq_self.2
  intro e he
  simpa using h e he

theorem Binding.loadModel_eq (cls : String) (C : LLMInferenceClass σ) (init : InferenceParams)
    (w : World σ) (modelPath : JString) (params : JObject) :
    Binding.loadModel cls C init w modelPath params =
      .returned (freshAddr w.objs)
        { env :=
            { nextChars := w.env.nextChars + 2
              acquired := w.env.acquired ++
                [(modelPath, ⟨w.env.nextChars, modelPath.chars⟩),
                 (params.objectFields "chatTemplate",
                   ⟨w.env.nextChars + 1, (params.objectFields "chatTemplate").chars⟩)]
              released := w.env.released ++
                [(modelPath, ⟨w.env.nextChars, modelPath.chars⟩),
                 (params.objectFields "chatTemplate",
                   ⟨w.env.nextChars + 1, (params.objectFields "chatTemplate").chars⟩)]
              pending :=
                match (C.loadModel C.construct ⟨w.env.nextChars, modelPath.chars⟩
                  (marshalled params
                    ⟨w.env.nextChars + 1, (params.objectFields "chatTemplate").chars⟩)).1 with
                | .ok _ => w.env.pending
                | .error e => some ⟨⟨"java/lang/IllegalStateException"⟩, e.what⟩ }
          objs := (freshAddr w.objs,
            (C.loadModel C.construct ⟨w.env.nextChars, modelPath.chars⟩
              (marshalled params
                ⟨w.env.nextChars + 1, (params.objectFields "chatTemplate").chars⟩)).2) :: w.objs
          allocated := w.allocated ++ [freshAddr w.objs]
          deleted := w.deleted
          calls := w.calls ++ [.loadModel (freshAddr w.objs) ⟨w.env.nextChars, modelPath.chars⟩
            (marshalled params
              ⟨w.env.nextChars + 1, (params.objectFields "chatTemplate").chars⟩)] } := by
  have hfresh : ∀ e ∈ w.objs, e.1 ≠ freshAddr w.objs :=
    fun e he => Nat.ne_of_lt (freshAddr_gt w.objs e he)
  simp only [Binding.loadModel, JNIEnv.GetStringUTFChars, World.new, World.invoke, World.deref,
    World.store, World.call, List.lookup_cons, beq_self_eq_true, GetFloatField, GetBooleanField,
    GetLongField, GetIntField, GetObjectField, GetFieldID, FindClass,
    JNIEnv.ReleaseStringUTFChars, JNIEnv.ThrowNew, List.map_cons, if_true,
    map_store_fresh _ _ _ hfresh]
  cases h : (C.loadModel C.construct ⟨w.env.nextChars, modelPath.chars⟩
      (marshalled params
        ⟨w.env.nextChars + 1, (params.objectFields "chatTemplate").chars⟩)).1 <;>
    simp [marshalled] at h ⊢ <;> simp [h, marshalled]

theorem freshAddr_ne_zero (objs : List (Addr × σ)) : freshAddr objs ≠ 0 := Nat.succ_ne_zero _

theorem lookup_filter_ne (objs : List (Addr × σ)) (p : Addr) :
    (objs.filter (fun e => e.1 != p)).lookup p = none := by
  induction objs with
  | nil => rfl
  | cons x xs ih =>
    by_cases hx : x.1 = p
    · simp [List.filter_cons, hx, ih]
    · have hpx : (p == x.1) = false := by
        simpa using fun h : p = x.1 => hx h.symm
      obtain ⟨a, b⟩ := x
      simp only [List.filter_cons]
      have : ((a != p) = true) := by simpa using hx
      simp only [this, if_true, List.lookup_cons]
      simp only at hpx
      rw [hpx]
      exact ih

theorem World.invoke_dead {α : Type} (w : World σ) (p : Addr) (c : SessionCall)
    (m : σ → Except RuntimeError α × σ) (h : w.deref p = none) : w.invoke p c m = none := by
  simp [World.invoke, h]

theorem World.invoke_live {α : Type} (w : World σ) (p : Addr) (c : SessionCall)
    (m : σ → Except RuntimeError α × σ) (obj : σ) (h : w.deref p = some obj) :
    w.invoke p c m = some ((m obj).1, (w.store p (m obj).2).call c) := by
  simp [World.invoke, h]

/-- Closing a live, non-null handle destroys the object there, once, and leaves the
handle dangling. -/
theorem Binding.close_live (w : World σ) (p : Addr) (obj : σ) (hp : p ≠ 0)
    (h : w.deref p = some obj) :
    Binding.close w p = .returned ()
        { w with objs := w.objs.filter (fun e => e.1 != p), deleted := w.deleted ++ [p] } ∧
      World.deref { w with objs := w.objs.filter (fun e => e.1 != p),
                           deleted := w.deleted ++ [p] } p = none := by
  refine ⟨by simp [Binding.close, World.delete, hp, h], ?_⟩
  simp [World.deref, lookup_filter_ne]

theorem Binding.close_dead (w : World σ) (p : Addr) (hp : p ≠ 0) (h : w.deref p = none) :
    Binding.close w p = .undefinedBehaviour := by
  simp [Binding.close, World.delete, hp, h]

/-- Closing the handle `loadModel` returned gives back the objects that were live
before the load. -/
theorem Binding.close_after_loadModel (w : World σ) (obj : σ) (w1 : World σ)
    (hobjs : w1.objs = (freshAddr w.objs, obj) :: w.objs) :
    Binding.close w1 (freshAddr w.objs) =
      .returned () { w1 with objs := w.objs, deleted := w1.deleted ++ [freshAddr w.objs] } := by
  have hfresh : ∀ e ∈ w.objs, e.1 ≠ freshAddr w.objs :=
    fun e he => Nat.ne_of_lt (freshAddr_gt w.objs e he)
  have hlive : w1.deref (freshAddr w.objs) = some obj := by
    simp [World.deref, hobjs]
  have hfilter : w1.objs.filter (fun e => e.1 != freshAddr w.objs) = w.objs := by
    rw [hobjs, List.filter_cons]
    simp [filter_fresh _ _ hfresh]
  rw [(Binding.close_live w1 _ obj (freshAddr_ne_zero _) hlive).1, hfilter]

theorem mem_of_lookup (objs : List (Addr × σ)) (p : Addr) (obj : σ)
    (h : objs.lookup p = some obj) : (p, obj) ∈ objs := by
  induction objs with
  | nil => cases h
  | cons x xs ih =>
    obtain ⟨a, b⟩ := x
    by_cases hpa : p = a
    · subst hpa
      simp only [List.lookup_cons, beq_self_eq_true] at h
      cases h
      exact List.mem_cons_self _ _
    · have hbeq : (p == a) = false := by simpa using hpa
      simp only [List.lookup_cons, hbeq] at h
      exact List.mem_cons_of_mem _ (ih h)

theorem deref_freshAddr (w : World σ) : w.deref (freshAddr w.objs) = none := by
  cases hl : w.deref (freshAddr w.objs) with
  | none => rfl
  | some obj =>
    exact absurd rfl (Nat.ne_of_lt (freshAddr_gt w.objs _ (mem_of_lookup _ _ _ hl)))

/-- What `completionLoop` returns on a live handle, by the result of the member call. -/
theorem Binding.completionLoop_live (C : LLMInferenceClass σ) (w : World σ) (p : Addr)
    (obj : σ) (h : w.deref p = some obj) :
    Binding.completionLoop C w p =
      match (C.completionLoop obj).1 with
      | .ok response =>
        .returned (some (if response = "" then "[EOG]" else c_str response))
          ((w.store p (C.completionLoop obj).2).call (.completionLoop p))
      | .error e =>
        .returned none
          { (w.store p (C.completionLoop obj).2).call (.completionLoop p) with
            env := w.env.ThrowNew (FindClass "java/lang/IllegalStateException") e.what } := by
  simp only [Binding.completionLoop, World.invoke_live w p _ _ obj h]
  cases hr : (C.completionLoop obj).1 with
  | error e => simp [World.store, World.call]
  | ok response =>
    by_cases hempty : response = "" <;> simp [hempty, NewStringUTF]

/-- Every binding that calls a member goes through the handle: on a handle to no
live object none of them has a defined result.  The `startCompletion` here is the
one of `smollm.cpp`. -/
theorem Binding.dead_handle (C : LLMInferenceClass σ) (w : World σ) (p : Addr)
    (h : w.deref p = none) (message role prompt : JString) :
    Binding.addChatMessage C w p message role = .undefinedBehaviour ∧
    Binding.getResponseGenerationSpeed C w p = .undefinedBehaviour ∧
    Binding.getContextSizeUsed C w p = .undefinedBehaviour ∧
    Binding.startCompletion "promptCstr" C w p prompt = .undefinedBehaviour ∧
    Binding.completionLoop C w p = .undefinedBehaviour ∧
    Binding.stopCompletion C w p = .undefinedBehaviour := by
  refine ⟨?_, ?_, ?_, ?_, ?_, ?_⟩
  · simp only [Binding.addChatMessage, JNIEnv.GetStringUTFChars]
    rw [World.invoke_dead _ _ _ _ (by exact h)]
  · simp [Binding.getResponseGenerationSpeed, World.invoke, h]
  · simp [Binding.getContextSizeUsed, World.invoke, h]
  · simp only [Binding.startCompletion, JNIEnv.GetStringUTFChars, List.lookup_cons,
      beq_self_eq_true]
    rw [World.invoke_dead _ _ _ _ (by exact h)]
  · simp [Binding.completionLoop, World.invoke, h]
  · simp [Binding.stopCompletion, World.invoke, h]

/-- On a live handle, when the member call returns normally, `addChatMessage`
releases the two buffers it obtained, each once and with the pointer obtained for
it. -/
theorem Binding.addChatMessage_releases (C : LLMInferenceClass σ) (w : World σ) (p : Addr)
    (obj : σ) (message role : JString) (h : w.deref p = some obj)
    (hok : (C.addChatMessage obj ⟨w.env.nextChars, message.chars⟩
      ⟨w.env.nextChars + 1, role.chars⟩).1 = .ok ()) :
    ∃ w1, Binding.addChatMessage C w p message role = .returned () w1 ∧
      w1.env.acquired = w.env.acquired ++
        [(message, ⟨w.env.nextChars, message.chars⟩),
         (role, ⟨w.env.nextChars + 1, role.chars⟩)] ∧
      w1.env.released = w.env.released ++
        [(message, ⟨w.env.nextChars, message.chars⟩),
         (role, ⟨w.env.nextChars + 1, role.chars⟩)] := by
  simp only [Binding.addChatMessage, JNIEnv.GetStringUTFChars]
  rw [World.invoke_live _ _ _ _ obj (by exact h)]
  simp only [hok]
  exact ⟨_, rfl, by simp [World.store, World.call, JNIEnv.ReleaseStringUTFChars],
    by simp [World.store, World.call, JNIEnv.ReleaseStringUTFChars]⟩

/-- On a live handle, when the member call returns normally, the `startCompletion`
of `smollm.cpp` releases the buffer it obtained, once and with the pointer obtained
for it. -/
theorem Binding.startCompletion_releases (C : LLMInferenceClass σ) (w : World σ) (p : Addr)
    (obj : σ) (prompt : JString) (h : w.deref p = some obj)
    (hok : (C.startCompletion obj ⟨w.env.nextChars, prompt.chars⟩).1 = .ok ()) :
    ∃ w1, Binding.startCompletion "promptCstr" C w p prompt = .returned () w1 ∧
      w1.env.acquired = w.env.acquired ++ [(prompt, ⟨w.env.nextChars, prompt.chars⟩)] ∧
      w1.env.released = w.env.released ++ [(prompt, ⟨w.env.nextChars, prompt.chars⟩)] := by
  simp only [Binding.startCompletion, JNIEnv.GetStringUTFChars, List.lookup_cons,
    beq_self_eq_true]
  rw [World.invoke_live _ _ _ _ obj (by exact h)]
  simp only [hok]
  exact ⟨_, rfl, by simp [World.store, World.call, JNIEnv.ReleaseStringUTFChars],
    by simp [World.store, World.call, JNIEnv.ReleaseStringUTFChars]⟩

/-- Whatever identifier other than `promptCstr` is given to the release call of
`startCompletion`, it names no local of the function. -/
theorem Binding.startCompletion_undeclared (ident : String) (C : LLMInferenceClass σ)
    (w : World σ) (p : Addr) (prompt : JString) (h : ident ≠ "promptCstr") :
    Binding.startCompletion ident C w p prompt = .illFormed ident := by
  have hbeq : (ident == "promptCstr") = false := by simpa using h
  simp [Binding.startCompletion, JNIEnv.GetStringUTFChars, List.lookup_cons, hbeq]

/-! ## Lemmas on the session -/

namespace InferenceSession

theorem completionLoop_cancelling (E : Engine) (s : InferenceSession)
    (h : s.state = .Cancelling) : completionLoop E s = (.ok .endOfGeneration, finalize E s) := by
  simp [completionLoop, h]

theorem addChatMessage_idle (s : InferenceSession) (message role : String)
    (h : s.state = .Idle) :
    (addChatMessage s message role).2.state = .Idle ∧
      (addChatMessage s message role).2.history.length =
        s.history.length + successes [(addChatMessage s message role).1] := by
  unfold addChatMessage
  simp only [h]
  cases parseRole role <;> simp [successes, h]

theorem successes_cons {ε α : Type} (r : Except ε α) (rs : List (Except ε α)) :
    successes (r :: rs) = successes [r] + successes rs := by
  cases r <;> simp [successes, List.filter_cons, Nat.add_comm]

theorem parseRole_invalid (role : String) (h1 : role ≠ "system") (h2 : role ≠ "user")
    (h3 : role ≠ "assistant") : parseRole role = none := by
  simp [parseRole, h1, h2, h3]

end InferenceSession

/-! ## The claims -/

/-- C2: for every model path and every parameter object, in both bindings,
`loadModel` followed by `close` on the handle it returned allocates exactly one
session object, at an address that was not live before, `close` destroys that same
object, exactly once, and afterwards the live objects are exactly those that were
live before the pair. -/
theorem loadModel_close_releases_once (C : LLMInferenceClass σ) (init : InferenceParams)
    (w : World σ) (modelPath : JString) (params : JObject) :
    (∃ h w1 w2,
      Java_io_shubham0204_smollm_SmolLM_loadModel C init w modelPath params = .returned h w1 ∧
      w1.allocated = w.allocated ++ [h] ∧ w1.deleted = w.deleted ∧
      w.deref h = none ∧ (w1.deref h).isSome ∧
      Java_io_shubham0204_smollm_SmolLM_close w1 h = .returned () w2 ∧
      w2.allocated = w.allocated ++ [h] ∧ w2.deleted = w.deleted ++ [h] ∧
      w2.objs = w.objs ∧ w2.deref h = none) ∧
    (∃ h w1 w2,
      Java_com_roblobsta_lobstachat_lm_LobstaChatLM_loadModel C init w modelPath params =
        .returned h w1 ∧
      w1.allocated = w.allocated ++ [h] ∧ w1.deleted = w.deleted ∧
      w.deref h = none ∧ (w1.deref h).isSome ∧
      Java_com_roblobsta_lobstachat_lm_LobstaChatLM_close w1 h = .returned () w2 ∧
      w2.allocated = w.allocated ++ [h] ∧ w2.deleted = w.deleted ++ [h] ∧
      w2.objs = w.objs ∧ w2.deref h = none) := by
  have hdead : w.deref (freshAddr w.objs) = none := deref_freshAddr w
  constructor
  · refine ⟨_, _, _, Binding.loadModel_eq _ C init w modelPath params, rfl, rfl, hdead,
      by simp [World.deref], Binding.close_after_loadModel w _ _ rfl, rfl, rfl, rfl, hdead⟩
  · refine ⟨_, _, _, Binding.loadModel_eq _ C init w modelPath params, rfl, rfl, hdead,
      by simp [World.deref], Binding.close_after_loadModel w _ _ rfl, rfl, rfl, rfl, hdead⟩

/-- C3: on a load that throws `std::runtime_error`, in both bindings, `loadModel`
raises `IllegalStateException` with the message of the error, yet returns the
address of the session object it allocated, and that object is still live: nothing
was deleted. -/
theorem loadModel_failed_load_keeps_object :
    (∃ w1,
      Java_io_shubham0204_smollm_SmolLM_loadModel (scripted (.error ⟨"cannot load"⟩) [])
        zeroParams emptyWorld ⟨1, "/models/missing.gguf"⟩ sampleParams = .returned 1 w1 ∧
      w1.env.pending = some ⟨⟨"java/lang/IllegalStateException"⟩, "cannot load"⟩ ∧
      w1.deref 1 = some [] ∧ w1.allocated = [1] ∧ w1.deleted = []) ∧
    (∃ w1,
      Java_com_roblobsta_lobstachat_lm_LobstaChatLM_loadModel
        (scripted (.error ⟨"cannot load"⟩) [])
        zeroParams emptyWorld ⟨1, "/models/missing.gguf"⟩ sampleParams = .returned 1 w1 ∧
      w1.env.pending = some ⟨⟨"java/lang/IllegalStateException"⟩, "cannot load"⟩ ∧
      w1.deref 1 = some [] ∧ w1.allocated = [1] ∧ w1.deleted = []) := by
  constructor
  · exact ⟨_, Binding.loadModel_eq _ _ _ _ _ _, rfl, rfl, rfl, rfl⟩
  · exact ⟨_, Binding.loadModel_eq _ _ _ _ _ _, rfl, rfl, rfl, rfl⟩

/-- C10: on a live session whose `startCompletion` returns normally, the
`lobstachatlm.cpp` binding of `startCompletion` hands `ReleaseStringUTFChars` the
identifier `promptCItr`, which names no local, so the buffer it obtained for the
prompt is not the one released; the `smollm.cpp` binding on the same input releases
the buffer it obtained, once. -/
theorem lobstachat_startCompletion_releases_undeclared :
    Java_com_roblobsta_lobstachat_lm_LobstaChatLM_startCompletion (scripted (.ok ()) [])
      (liveWorld []) 1 ⟨2, "hi"⟩ = .illFormed "promptCItr" ∧
    (∃ w1,
      Java_io_shubham0204_smollm_SmolLM_startCompletion (scripted (.ok ()) [])
        (liveWorld []) 1 ⟨2, "hi"⟩ = .returned () w1 ∧
      w1.env.acquired = [(⟨2, "hi"⟩, ⟨100, "hi"⟩)] ∧
      w1.env.released = [(⟨2, "hi"⟩, ⟨100, "hi"⟩)]) := by
  constructor
  · decide
  · exact ⟨_, rfl, rfl, rfl⟩

/-- C1, as stated, fails: in both bindings a session response whose text is
`[EOG]` and the empty response that stands for end-of-generation reach the caller
as the same string `[EOG]`, in the same environment. -/
theorem completionLoop_conflates_sentinel :
    (∃ wa wb,
      Java_io_shubham0204_smollm_SmolLM_completionLoop (scripted (.ok ()) [])
        (liveWorld [.ok "[EOG]"]) 1 = .returned (some "[EOG]") wa ∧
      Java_io_shubham0204_smollm_SmolLM_completionLoop (scripted (.ok ()) [])
        (liveWorld [.ok ""]) 1 = .returned (some "[EOG]") wb ∧
      wa = wb) ∧
    (∃ wa wb,
      Java_com_roblobsta_lobstachat_lm_LobstaChatLM_completionLoop (scripted (.ok ()) [])
        (liveWorld [.ok "[EOG]"]) 1 = .returned (some "[EOG]") wa ∧
      Java_com_roblobsta_lobstachat_lm_LobstaChatLM_completionLoop (scripted (.ok ()) [])
        (liveWorld [.ok ""]) 1 = .returned (some "[EOG]") wb ∧
      wa = wb) := by
  constructor
  · exact ⟨_, _, rfl, rfl, rfl⟩
  · exact ⟨_, _, rfl, rfl, rfl⟩

/-- C1, amended: on a live session both bindings of `completionLoop` signal
end-of-generation in band.  When the member call returns a response, the caller gets
a string and no exception is raised; the string is `[EOG]` exactly when the response
is empty or reads `[EOG]` as a C string, and is otherwise the response read as a C
string.  When the member call throws `std::runtime_error`, the caller gets `nullptr`
and a pending `IllegalStateException` carrying the message. -/
theorem completionLoop_sentinel_in_band (C : LLMInferenceClass σ) (w : World σ)
    (modelPtr : Addr) (obj : σ) (hlive : w.deref modelPtr = some obj) :
    ∃ ret w1,
      Java_io_shubham0204_smollm_SmolLM_completionLoop C w modelPtr = .returned ret w1 ∧
      Java_com_roblobsta_lobstachat_lm_LobstaChatLM_completionLoop C w modelPtr =
        .returned ret w1 ∧
      (∀ response, (C.completionLoop obj).1 = .ok response →
        w1.env = w.env ∧
        ret = some (if response = "" then "[EOG]" else c_str response) ∧
        (ret = some "[EOG]" ↔ response = "" ∨ c_str response = "[EOG]")) ∧
      (∀ e, (C.completionLoop obj).1 = .error e →
        ret = none ∧
        w1.env.pending = some ⟨⟨"java/lang/IllegalStateException"⟩, e.what⟩) := by
  have hlive1 := Binding.completionLoop_live C w modelPtr obj hlive
  unfold Java_io_shubham0204_smollm_SmolLM_completionLoop
    Java_com_roblobsta_lobstachat_lm_LobstaChatLM_completionLoop
  cases hr : (C.completionLoop obj).1 with
  | error e =>
    rw [hr] at hlive1
    refine ⟨_, _, hlive1, hlive1, ?_, ?_⟩
    · intro response h; cases h
    · intro e1 h
      cases h
      exact ⟨rfl, rfl⟩
  | ok response =>
    rw [hr] at hlive1
    refine ⟨_, _, hlive1, hlive1, ?_, ?_⟩
    · intro r h
      cases h
      refine ⟨rfl, rfl, ?_⟩
      by_cases hempty : response = ""
      · simp [hempty]
      · simp [hempty]
    · intro e h; cases h

/-- The amended C1 at a live scripted session that answers `hello`. -/
theorem completionLoop_sentinel_in_band_witness :
    ∃ ret w1,
      Java_io_shubham0204_smollm_SmolLM_completionLoop (scripted (.ok ()) [])
        (liveWorld [.ok "hello"]) 1 = .returned ret w1 ∧
      Java_com_roblobsta_lobstachat_lm_LobstaChatLM_completionLoop (scripted (.ok ()) [])
        (liveWorld [.ok "hello"]) 1 = .returned ret w1 ∧
      (∀ response,
        ((scripted (.ok ()) []).completionLoop [.ok "hello"]).1 = .ok response →
        w1.env = (liveWorld ([.ok "hello"] : Script)).env ∧
        ret = some (if response = "" then "[EOG]" else c_str response) ∧
        (ret = some "[EOG]" ↔ response = "" ∨ c_str response = "[EOG]")) ∧
      (∀ e, ((scripted (.ok ()) []).completionLoop [.ok "hello"]).1 = .error e →
        ret = none ∧
        w1.env.pending = some ⟨⟨"java/lang/IllegalStateException"⟩, e.what⟩) :=
  completionLoop_sentinel_in_band (scripted (.ok ()) []) (liveWorld [.ok "hello"]) 1
    [.ok "hello"] rfl

/-- C8, as stated, fails: after `close` on a live handle, a second `close` on it
does not return leaving the state of the first (it deletes through a dangling
pointer), and `getContextSizeUsed` on it does not return with an error reported (it
calls a member through the dangling pointer). -/
theorem close_twice_is_not_idempotent :
    ∃ w1 : World Script,
      Java_io_shubham0204_smollm_SmolLM_close (liveWorld ([] : Script)) 1 = .returned () w1 ∧
      Java_io_shubham0204_smollm_SmolLM_close w1 1 = .undefinedBehaviour ∧
      Java_io_shubham0204_smollm_SmolLM_close w1 1 ≠ .returned () w1 ∧
      Java_io_shubham0204_smollm_SmolLM_getContextSizeUsed (scripted (.ok ()) []) w1 1 =
        .undefinedBehaviour ∧
      (∀ n w2, Java_io_shubham0204_smollm_SmolLM_getContextSizeUsed (scripted (.ok ()) []) w1 1 ≠
        .returned n w2) := by
  refine ⟨⟨⟨100, [], [], none⟩, [], [1], [1], []⟩, rfl, rfl, by decide, rfl, ?_⟩
  intro n w2 h
  have h2 : Java_io_shubham0204_smollm_SmolLM_getContextSizeUsed (scripted (.ok ()) [])
      (⟨⟨100, [], [], none⟩, [], [1], [1], []⟩ : World Script) 1 = .undefinedBehaviour := rfl
  exact Outcome.noConfusion (h2.symm.trans h)

/-- C8, amended: `close` on a live, non-null handle destroys the session object there
exactly once and leaves the handle dangling; the bindings keep no record of it and
check nothing, so that a second `close` on that handle, and `addChatMessage`,
`getResponseGenerationSpeed`, `getContextSizeUsed`, `startCompletion`,
`completionLoop` and `stopCompletion` on it, go through the dangling pointer: none of
them has a defined result and none reports an error.  (The `startCompletion`
of `lobstachatlm.cpp` is left out.) -/
theorem close_once_then_handle_dangles (C : LLMInferenceClass σ) (w : World σ) (h : Addr)
    (obj : σ) (message role prompt : JString) (hnull : h ≠ 0) (hlive : w.deref h = some obj) :
    ∃ w1,
      Java_io_shubham0204_smollm_SmolLM_close w h = .returned () w1 ∧
      Java_com_roblobsta_lobstachat_lm_LobstaChatLM_close w h = .returned () w1 ∧
      w1.deleted = w.deleted ++ [h] ∧ w1.deref h = none ∧
      Java_io_shubham0204_smollm_SmolLM_close w1 h = .undefinedBehaviour ∧
      Java_com_roblobsta_lobstachat_lm_LobstaChatLM_close w1 h = .undefinedBehaviour ∧
      Java_io_shubham0204_smollm_SmolLM_addChatMessage C w1 h message role =
        .undefinedBehaviour ∧
      Java_com_roblobsta_lobstachat_lm_LobstaChatLM_addChatMessage C w1 h message role =
        .undefinedBehaviour ∧
      Java_io_shubham0204_smollm_SmolLM_getResponseGenerationSpeed C w1 h =
        .undefinedBehaviour ∧
      Java_com_roblobsta_lobstachat_lm_LobstaChatLM_getResponseGenerationSpeed C w1 h =
        .undefinedBehaviour ∧
      Java_io_shubham0204_smollm_SmolLM_getContextSizeUsed C w1 h = .undefinedBehaviour ∧
      Java_com_roblobsta_lobstachat_lm_LobstaChatLM_getContextSizeUsed C w1 h =
        .undefinedBehaviour ∧
      Java_io_shubham0204_smollm_SmolLM_startCompletion C w1 h prompt = .undefinedBehaviour ∧
      Java_io_shubham0204_smollm_SmolLM_completionLoop C w1 h = .undefinedBehaviour ∧
      Java_com_roblobsta_lobstachat_lm_LobstaChatLM_completionLoop C w1 h =
        .undefinedBehaviour ∧
      Java_io_shubham0204_smollm_SmolLM_stopCompletion C w1 h = .undefinedBehaviour ∧
      Java_com_roblobsta_lobstachat_lm_LobstaChatLM_stopCompletion C w1 h =
        .undefinedBehaviour := by
  obtain ⟨hclose, hdead⟩ := Binding.close_live w h obj hnull hlive
  obtain ⟨h1, h2, h3, h4, h5, h6⟩ := Binding.dead_handle C _ h hdead message role prompt
  exact ⟨_, hclose, hclose, rfl, hdead, Binding.close_dead _ h hnull hdead,
    Binding.close_dead _ h hnull hdead, h1, h1, h2, h2, h3, h3, h4, h5, h5, h6, h6⟩

/-- The amended C8 at a world whose one live session is at address `1`. -/
theorem close_once_then_handle_dangles_witness :
    ∃ w1 : World Script,
      Java_io_shubham0204_smollm_SmolLM_close (liveWorld ([] : Script)) 1 = .returned () w1 ∧
      Java_com_roblobsta_lobstachat_lm_LobstaChatLM_close (liveWorld ([] : Script)) 1 =
        .returned () w1 ∧
      w1.deleted = (liveWorld ([] : Script)).deleted ++ [1] ∧ w1.deref 1 = none ∧
      Java_io_shubham0204_smollm_SmolLM_close w1 1 = .undefinedBehaviour ∧
      Java_com_roblobsta_lobstachat_lm_LobstaChatLM_close w1 1 = .undefinedBehaviour ∧
      Java_io_shubham0204_smollm_SmolLM_addChatMessage (scripted (.ok ()) []) w1 1
        ⟨2, "hi"⟩ ⟨3, "user"⟩ = .undefinedBehaviour ∧
      Java_com_roblobsta_lobstachat_lm_LobstaChatLM_addChatMessage (scripted (.ok ()) []) w1 1
        ⟨2, "hi"⟩ ⟨3, "user"⟩ = .undefinedBehaviour ∧
      Java_io_shubham0204_smollm_SmolLM_getResponseGenerationSpeed (scripted (.ok ()) []) w1 1 =
        .undefinedBehaviour ∧
      Java_com_roblobsta_lobstachat_lm_LobstaChatLM_getResponseGenerationSpeed
        (scripted (.ok ()) []) w1 1 = .undefinedBehaviour ∧
      Java_io_shubham0204_smollm_SmolLM_getContextSizeUsed (scripted (.ok ()) []) w1 1 =
        .undefinedBehaviour ∧
      Java_com_roblobsta_lobstachat_lm_LobstaChatLM_getContextSizeUsed (scripted (.ok ()) [])
        w1 1 = .undefinedBehaviour ∧
      Java_io_shubham0204_smollm_SmolLM_startCompletion (scripted (.ok ()) []) w1 1 ⟨4, "go"⟩ =
        .undefinedBehaviour ∧
      Java_io_shubham0204_smollm_SmolLM_completionLoop (scripted (.ok ()) []) w1 1 =
        .undefinedBehaviour ∧
      Java_com_roblobsta_lobstachat_lm_LobstaChatLM_completionLoop (scripted (.ok ()) []) w1 1 =
        .undefinedBehaviour ∧
      Java_io_shubham0204_smollm_SmolLM_stopCompletion (scripted (.ok ()) []) w1 1 =
        .undefinedBehaviour ∧
      Java_com_roblobsta_lobstachat_lm_LobstaChatLM_stopCompletion (scripted (.ok ()) []) w1 1 =
        .undefinedBehaviour :=
  close_once_then_handle_dangles (scripted (.ok ()) []) (liveWorld ([] : Script)) 1 []
    ⟨2, "hi"⟩ ⟨3, "user"⟩ ⟨4, "go"⟩ (by decide) rfl

open InferenceSession

/-- C6: for every sequence of `addChatMessage` calls made on an Idle session, the
session stays Idle and the ChatHistory grows by the number of calls that succeeded,
so that on a newly loaded session, whose ChatHistory is empty, its length is that
number; and a call whose role is none of `system`, `user`, `assistant` returns
`InvalidRoleError` and leaves the session, ChatHistory included, unchanged. -/
theorem addChatMessages_history_length (s : InferenceSession) (calls : List (String × String))
    (hidle : s.state = .Idle) :
    (addChatMessages s calls).2.state = .Idle ∧
    (addChatMessages s calls).2.history.length =
      s.history.length + successes (addChatMessages s calls).1 ∧
    (s.history = [] →
      (addChatMessages s calls).2.history.length = successes (addChatMessages s calls).1) ∧
    (∀ message role, role ≠ "system" → role ≠ "user" → role ≠ "assistant" →
      addChatMessage s message role = (.error .InvalidRoleError, s)) := by
  have hmain : ∀ (cs : List (String × String)) (t : InferenceSession), t.state = .Idle →
      (addChatMessages t cs).2.state = .Idle ∧
      (addChatMessages t cs).2.history.length =
        t.history.length + successes (addChatMessages t cs).1 := by
    intro cs
    induction cs with
    | nil => intro t ht; exact ⟨ht, by simp [addChatMessages, successes]⟩
    | cons c cs ih =>
      intro t ht
      obtain ⟨h1, h2⟩ := addChatMessage_idle t c.1 c.2 ht
      obtain ⟨h3, h4⟩ := ih _ h1
      refine ⟨h3, ?_⟩
      simp only [addChatMessages]
      have h5 := successes_cons (addChatMessage t c.1 c.2).1
        (addChatMessages (addChatMessage t c.1 c.2).2 cs).1
      omega
  obtain ⟨h1, h2⟩ := hmain calls s hidle
  refine ⟨h1, h2, ?_, ?_⟩
  · intro hempty
    rw [h2, hempty]
    simp
  · intro message role hr1 hr2 hr3
    simp [addChatMessage, hidle, parseRole_invalid role hr1 hr2 hr3]

/-- C6 at a fresh session: three calls, the second with the role `tool`. -/
theorem addChatMessages_history_length_witness :
    (addChatMessages (freshSession 8)
      [("Be brief.", "system"), ("x", "tool"), ("Hi", "user")]).2.state = .Idle ∧
    (addChatMessages (freshSession 8)
      [("Be brief.", "system"), ("x", "tool"), ("Hi", "user")]).2.history.length =
      (freshSession 8).history.length + successes (addChatMessages (freshSession 8)
        [("Be brief.", "system"), ("x", "tool"), ("Hi", "user")]).1 ∧
    ((freshSession 8).history = [] →
      (addChatMessages (freshSession 8)
        [("Be brief.", "system"), ("x", "tool"), ("Hi", "user")]).2.history.length =
      successes (addChatMessages (freshSession 8)
        [("Be brief.", "system"), ("x", "tool"), ("Hi", "user")]).1) ∧
    (∀ message role, role ≠ "system" → role ≠ "user" → role ≠ "assistant" →
      addChatMessage (freshSession 8) message role =
        (.error .InvalidRoleError, freshSession 8)) :=
  addChatMessages_history_length (freshSession 8)
    [("Be brief.", "system"), ("x", "tool"), ("Hi", "user")] rfl

/-- C7: `stopCompletion` moves a Generating session to Cancelling and changes
nothing else, and leaves an Idle or a Cancelling session as it is; after
`stopCompletion` on a Generating session the next `completionLoop` call returns the
end-of-generation sentinel and leaves the session Idle, having run no engine step
and appended no token: the step count, the running output, the token count and the
occupied-context counter are as before. -/
theorem stopCompletion_then_completionLoop (E : Engine) (s : InferenceSession) :
    (s.state = .Generating → stopCompletion s = { s with state := .Cancelling }) ∧
    (s.state = .Idle ∨ s.state = .Cancelling → stopCompletion s = s) ∧
    (s.state = .Generating →
      (completionLoop E (stopCompletion s)).1 = .ok .endOfGeneration ∧
      (completionLoop E (stopCompletion s)).2.state = .Idle ∧
      (completionLoop E (stopCompletion s)).2.engineSteps = s.engineSteps ∧
      (completionLoop E (stopCompletion s)).2.output = s.output ∧
      (completionLoop E (stopCompletion s)).2.tokensGenerated = s.tokensGenerated ∧
      (completionLoop E (stopCompletion s)).2.contextUsed = s.contextUsed) := by
  refine ⟨?_, ?_, ?_⟩
  · intro h
    simp [stopCompletion, h]
  · intro h
    rcases h with h | h <;> simp [stopCompletion, h]
  · intro h
    have hstop : stopCompletion s = { s with state := .Cancelling } := by
      simp [stopCompletion, h]
    rw [hstop, completionLoop_cancelling E _ rfl]
    exact ⟨rfl, rfl, rfl, rfl, rfl, rfl⟩

/-- C7 at the counting engine: a session started on a prompt of 5 tokens, stopped
before the first step. -/
theorem stopCompletion_then_completionLoop_witness :
    stopCompletion (startCompletion countingEngine (freshSession 8) "hello").2 =
      { (startCompletion countingEngine (freshSession 8) "hello").2 with
        state := .Cancelling } ∧
    (completionLoop countingEngine
      (stopCompletion (startCompletion countingEngine (freshSession 8) "hello").2)).1 =
      .ok .endOfGeneration ∧
    (completionLoop countingEngine
      (stopCompletion (startCompletion countingEngine (freshSession 8) "hello").2)).2.state =
      .Idle ∧
    (completionLoop countingEngine
      (stopCompletion
        (startCompletion countingEngine (freshSession 8) "hello").2)).2.engineSteps = 0 :=
  ⟨(stopCompletion_then_completionLoop countingEngine
      (startCompletion countingEngine (freshSession 8) "hello").2).1 rfl,
    ((stopCompletion_then_completionLoop countingEngine
      (startCompletion countingEngine (freshSession 8) "hello").2).2.2 rfl).1,
    ((stopCompletion_then_completionLoop countingEngine
      (startCompletion countingEngine (freshSession 8) "hello").2).2.2 rfl).2.1,
    ((stopCompletion_then_completionLoop countingEngine
      (startCompletion countingEngine (freshSession 8) "hello").2).2.2 rfl).2.2.1⟩

end LocalInference
